import Mathlib

/-!
Shallow embedding of the offering-builder wizard (an Angular application).
The central store `OfferingState` (src/app/services/offering-state.ts) is
modelled as an immutable record; each mutating method of the service becomes
a function `OfferingState → ... → OfferingState`.  The `Tiers` step component
(src/app/components/tiers/tiers.ts) and the price-range helpers of the root
`App` component and the `Images` component are embedded likewise.  JavaScript
numbers that only ever hold integers (step indices, prices) are modelled as
`Int`; `string | null` fields as `Option String`; JS arrays as `List`.
-/

/-- Types of offerings users can create (the `null` case of the TS union is
modelled as `Option OfferingType`). -/
inductive OfferingType where
  | product
  | service
  | subscription
deriving DecidableEq, Repr

/-- Company classification types (`'Company Type' | 'Consultancy'`). -/
inductive CompanyType where
  | companyTypeLabel
  | consultancy
deriving DecidableEq, Repr

/-- Business categories (`'Law' | 'Notary' | 'Legal Services'`). -/
inductive Category where
  | law
  | notary
  | legalServices
deriving DecidableEq, Repr

/-- Billing types available for offerings. -/
inductive BillingType where
  | perProject
  | hourly
  | monthlyRetainer
  | fixedPrice
deriving DecidableEq, Repr

/-- A single step in the offering creation wizard. -/
structure Step where
  id : Int
  label : String
  completed : Bool
deriving DecidableEq, Repr

/-- A single pricing tier for an offering. -/
structure Tier where
  id : String
  name : String
  displayNameOverride : String
  supersedeTier : String
  bulletPoints : List String
  isPopular : Bool
  billingType : BillingType
  hasPriceRange : Bool
  priceFrom : Int
  priceTo : Int
  currency : String
  priceUnit : String
  requestQuoteOnly : Bool
deriving DecidableEq, Repr

/-- Available fallback colors for offering cards. -/
inductive FallbackColor where
  | burgundy
  | orange
  | green
  | magenta
  | gray
deriving DecidableEq, Repr

/-- An uploaded or gallery image.  The optional raw `File` handle of the TS
interface is an opaque browser object and is not part of the model; no claim
depends on it. -/
structure OfferingImage where
  id : String
  url : String
deriving DecidableEq, Repr

/-- The whole state held by the `OfferingState` service: one field per signal. -/
structure OfferingState where
  steps : List Step
  currentStep : Int
  selectedOfferingType : Option OfferingType
  companyType : CompanyType
  selectedCategories : List Category
  suggestedOffering : Option OfferingType
  offeringName : String
  tagline : String
  keyFeatures : List String
  offeringDescription : String
  tags : List String
  tiers : List Tier
  selectedTierId : Option String
  thumbnailImage : Option OfferingImage
  galleryImages : List OfferingImage
  fallbackColor : FallbackColor
deriving DecidableEq, Repr

namespace OfferingState

/-- Total number of steps in the wizard. -/
def TOTAL_STEPS : Int := 4

/-- Number of the first step. -/
def FIRST_STEP : Int := 1

/-- Initial steps configuration. -/
def INITIAL_STEPS : List Step :=
  [ { id := 1, label := "Offering Type", completed := false },
    { id := 2, label := "Details", completed := false },
    { id := 3, label := "Tiers", completed := false },
    { id := 4, label := "Images", completed := false } ]

/-- The initial value of every signal of the service, collected into a record. -/
def initialState : OfferingState :=
  { steps := INITIAL_STEPS
    currentStep := FIRST_STEP
    selectedOfferingType := none
    companyType := .consultancy
    selectedCategories := [.law, .notary, .legalServices]
    suggestedOffering := some .service
    offeringName := ""
    tagline := ""
    keyFeatures := []
    offeringDescription := ""
    tags := []
    tiers := []
    selectedTierId := none
    thumbnailImage := none
    galleryImages := []
    fallbackColor := .burgundy }

/-- Navigate to a specific step in the wizard; silently ignores an
out-of-range step number. -/
def setCurrentStep (s : OfferingState) (stepNumber : Int) : OfferingState :=
  if FIRST_STEP ≤ stepNumber ∧ stepNumber ≤ TOTAL_STEPS then
    { s with currentStep := stepNumber }
  else s

/-- Update the user's selected offering type. -/
def setOfferingType (s : OfferingState) (offeringType : Option OfferingType) :
    OfferingState :=
  { s with selectedOfferingType := offeringType }

/-- Mark a specific step as completed. -/
def completeStep (s : OfferingState) (stepId : Int) : OfferingState :=
  { s with steps := s.steps.map fun step =>
      if step.id = stepId then { step with completed := true } else step }

/-- Advance to the next step, marking the current step completed first. -/
def nextStep (s : OfferingState) : OfferingState :=
  let currentStepNumber := s.currentStep
  if currentStepNumber < TOTAL_STEPS then
    (s.completeStep currentStepNumber).setCurrentStep (currentStepNumber + 1)
  else s

/-- Go back to the previous step in the wizard. -/
def previousStep (s : OfferingState) : OfferingState :=
  let currentStepNumber := s.currentStep
  if currentStepNumber > FIRST_STEP then
    s.setCurrentStep (currentStepNumber - 1)
  else s

/-- Reset the wizard to its initial state: the source assigns every signal its
initial value (sixteen `.set` calls, one per field). -/
def reset (_s : OfferingState) : OfferingState :=
  { steps := INITIAL_STEPS
    currentStep := FIRST_STEP
    selectedOfferingType := none
    companyType := .consultancy
    selectedCategories := [.law, .notary, .legalServices]
    suggestedOffering := some .service
    offeringName := ""
    tagline := ""
    keyFeatures := []
    offeringDescription := ""
    tags := []
    tiers := []
    selectedTierId := none
    thumbnailImage := none
    galleryImages := []
    fallbackColor := .burgundy }

/-- Add a new tier to the offering and select it. -/
def addTier (s : OfferingState) (tier : Tier) : OfferingState :=
  { s with tiers := s.tiers ++ [tier], selectedTierId := some tier.id }

/-- Remove a tier by its ID; if it was selected, the selection falls back to
the first remaining tier, or to none. -/
def deleteTier (s : OfferingState) (tierId : String) : OfferingState :=
  let updatedTiers := s.tiers.filter fun t => t.id != tierId
  if s.selectedTierId = some tierId then
    { s with tiers := updatedTiers,
             selectedTierId :=
               match updatedTiers with
               | [] => none
               | t :: _ => some t.id }
  else
    { s with tiers := updatedTiers }

/-- Select a tier by its ID (no existence check). -/
def selectTier (s : OfferingState) (tierId : String) : OfferingState :=
  { s with selectedTierId := some tierId }

end OfferingState

/-- One keyed field update of a `Tier`, the argument pair
`(property, value)` of `updateTierProperty<K extends keyof Tier>`. -/
inductive TierField where
  | id (v : String)
  | name (v : String)
  | displayNameOverride (v : String)
  | supersedeTier (v : String)
  | bulletPoints (v : List String)
  | isPopular (v : Bool)
  | billingType (v : BillingType)
  | hasPriceRange (v : Bool)
  | priceFrom (v : Int)
  | priceTo (v : Int)
  | currency (v : String)
  | priceUnit (v : String)
  | requestQuoteOnly (v : Bool)
deriving DecidableEq, Repr

/-- The spread-update `{ ...tier, [property]: value }`. -/
def Tier.setField (t : Tier) : TierField → Tier
  | .id v => { t with id := v }
  | .name v => { t with name := v }
  | .displayNameOverride v => { t with displayNameOverride := v }
  | .supersedeTier v => { t with supersedeTier := v }
  | .bulletPoints v => { t with bulletPoints := v }
  | .isPopular v => { t with isPopular := v }
  | .billingType v => { t with billingType := v }
  | .hasPriceRange v => { t with hasPriceRange := v }
  | .priceFrom v => { t with priceFrom := v }
  | .priceTo v => { t with priceTo := v }
  | .currency v => { t with currency := v }
  | .priceUnit v => { t with priceUnit := v }
  | .requestQuoteOnly v => { t with requestQuoteOnly := v }

/-- Whether the keyed update targets the `id` field itself. -/
def TierField.isIdUpd : TierField → Bool
  | .id _ => true
  | _ => false

namespace OfferingState

/-- Update a property of a specific tier, leaving all other tiers untouched. -/
def updateTierProperty (s : OfferingState) (tierId : String) (f : TierField) :
    OfferingState :=
  { s with tiers := s.tiers.map fun tier =>
      if tier.id = tierId then tier.setField f else tier }

/-- Get the currently selected tier.  The source guard `if (!tierId) return
null` treats both `null` and the empty string as falsy. -/
def getSelectedTier (s : OfferingState) : Option Tier :=
  match s.selectedTierId with
  | none => none
  | some tierId =>
      if tierId = "" then none
      else s.tiers.find? fun t => t.id == tierId

/-- Reorder tiers by moving a tier from one index to another, with JS
`splice` semantics.  When `fromIndex` is out of range the source removes
nothing and then inserts `undefined` into the array; `undefined` has no
counterpart in `List Tier`, so that branch is modelled as inserting nothing
(every genuine tier is left unchanged either way).  `splice(toIndex, 0, x)`
clamps an over-long `toIndex` to the array length, hence the `min`. -/
def reorderTiers (s : OfferingState) (fromIndex toIndex : Nat) : OfferingState :=
  if h : fromIndex < s.tiers.length then
    let movedTier := s.tiers.get ⟨fromIndex, h⟩
    let rest := s.tiers.eraseIdx fromIndex
    { s with tiers := rest.insertIdx (min toIndex rest.length) movedTier }
  else s

/-- The hard-coded recommended tiers for a service offering. -/
def serviceTiers : List Tier :=
  [ { id := "starter", name := "Starter", displayNameOverride := "",
      supersedeTier := "",
      bulletPoints := ["Basic features", "Email support"],
      isPopular := false, billingType := .perProject, hasPriceRange := true,
      priceFrom := 500, priceTo := 1000, currency := "NZD",
      priceUnit := "Project", requestQuoteOnly := false },
    { id := "professional", name := "Professional", displayNameOverride := "",
      supersedeTier := "starter",
      bulletPoints := ["More AI Credits", "Integration for Salesforce and Quickbooks"],
      isPopular := true, billingType := .monthlyRetainer, hasPriceRange := true,
      priceFrom := 1600, priceTo := 2400, currency := "NZD",
      priceUnit := "Month", requestQuoteOnly := false },
    { id := "enterprise", name := "Enterprise", displayNameOverride := "",
      supersedeTier := "professional",
      bulletPoints := ["All features", "Priority support", "Custom integrations"],
      isPopular := false, billingType := .monthlyRetainer, hasPriceRange := false,
      priceFrom := 5000, priceTo := 5000, currency := "NZD",
      priceUnit := "Month", requestQuoteOnly := true } ]

/-- The hard-coded recommended tiers for a product offering. -/
def productTiers : List Tier :=
  [ { id := "base", name := "Base", displayNameOverride := "",
      supersedeTier := "",
      bulletPoints := ["Standard features", "Basic support"],
      isPopular := false, billingType := .fixedPrice, hasPriceRange := false,
      priceFrom := 550, priceTo := 550, currency := "NZD",
      priceUnit := "", requestQuoteOnly := false },
    { id := "advanced", name := "Advanced", displayNameOverride := "",
      supersedeTier := "base",
      bulletPoints := ["Advanced features", "Premium support", "Extended warranty"],
      isPopular := true, billingType := .fixedPrice, hasPriceRange := false,
      priceFrom := 950, priceTo := 950, currency := "NZD",
      priceUnit := "", requestQuoteOnly := false } ]

/-- The hard-coded recommended tiers for a subscription offering. -/
def subscriptionTiers : List Tier :=
  [ { id := "starter", name := "Starter", displayNameOverride := "",
      supersedeTier := "",
      bulletPoints := ["Essential features", "Email support", "Monthly billing"],
      isPopular := false, billingType := .monthlyRetainer, hasPriceRange := false,
      priceFrom := 29, priceTo := 29, currency := "NZD",
      priceUnit := "Month", requestQuoteOnly := false },
    { id := "professional", name := "Professional", displayNameOverride := "",
      supersedeTier := "starter",
      bulletPoints := ["All Starter features", "Priority support",
                       "Advanced analytics", "Team collaboration"],
      isPopular := true, billingType := .monthlyRetainer, hasPriceRange := false,
      priceFrom := 79, priceTo := 79, currency := "NZD",
      priceUnit := "Month", requestQuoteOnly := false },
    { id := "enterprise", name := "Enterprise", displayNameOverride := "",
      supersedeTier := "professional",
      bulletPoints := ["All Professional features", "Dedicated account manager",
                       "Custom integrations", "SLA guarantee"],
      isPopular := false, billingType := .monthlyRetainer, hasPriceRange := false,
      priceFrom := 199, priceTo := 199, currency := "NZD",
      priceUnit := "Month", requestQuoteOnly := false } ]

/-- The expression `this.selectedOfferingType() || this.suggestedOffering()`:
`||` falls through on `null` only, since the non-null offering types are
nonempty strings. -/
def effectiveOfferingType (s : OfferingState) : Option OfferingType :=
  match s.selectedOfferingType with
  | some t => some t
  | none => s.suggestedOffering

/-- Load the recommended tier structure based on the offering type. -/
def useRecommendedTiers (s : OfferingState) : OfferingState :=
  let offeringType : Option OfferingType := effectiveOfferingType s
  if offeringType = some .service then
    { s with tiers := serviceTiers, selectedTierId := some "professional" }
  else if offeringType = some .product then
    { s with tiers := productTiers, selectedTierId := some "base" }
  else if offeringType = some .subscription then
    { s with tiers := subscriptionTiers, selectedTierId := some "professional" }
  else s

/-- Set (or clear) the thumbnail image. -/
def setThumbnailImage (s : OfferingState) (image : Option OfferingImage) :
    OfferingState :=
  { s with thumbnailImage := image }

/-- Add a gallery image. -/
def addGalleryImage (s : OfferingState) (image : OfferingImage) : OfferingState :=
  { s with galleryImages := s.galleryImages ++ [image] }

/-- Remove a gallery image by ID. -/
def removeGalleryImage (s : OfferingState) (imageId : String) : OfferingState :=
  { s with galleryImages := s.galleryImages.filter fun img => img.id != imageId }

/-- Set the fallback color for the offering card. -/
def setFallbackColor (s : OfferingState) (color : FallbackColor) : OfferingState :=
  { s with fallbackColor := color }

end OfferingState

/-- The price unit the `Tiers` component derives from a billing type in
`updateBillingType`: the source initialises `priceUnit` to the empty string
and overwrites it through an if chain for the first three billing types. -/
def priceUnitForBillingType : BillingType → String
  | .perProject => "Project"
  | .hourly => "hr"
  | .monthlyRetainer => "Month"
  | .fixedPrice => ""

namespace Tiers

/-- The `Tiers` component's `toggleRequestQuote`: on the selected tier, set
`requestQuoteOnly`, and when enabling it also zero both price fields. -/
def toggleRequestQuote (s : OfferingState) (requestQuoteOnly : Bool) :
    OfferingState :=
  match s.getSelectedTier with
  | none => s
  | some tier =>
      let s1 := s.updateTierProperty tier.id (.requestQuoteOnly requestQuoteOnly)
      if requestQuoteOnly then
        (s1.updateTierProperty tier.id (.priceFrom 0)).updateTierProperty
          tier.id (.priceTo 0)
      else s1

/-- The `Tiers` component's `updateBillingType`: on the selected tier, set
`billingType` and then overwrite `priceUnit` according to
`priceUnitForBillingType`. -/
def updateBillingType (s : OfferingState) (billingType : BillingType) :
    OfferingState :=
  match s.getSelectedTier with
  | none => s
  | some tier =>
      let s1 := s.updateTierProperty tier.id (.billingType billingType)
      s1.updateTierProperty tier.id (.priceUnit (priceUnitForBillingType billingType))

end Tiers

namespace App

/-- The root `App` component's `getLowestPrice` preview helper: 0 on an empty
tier list or when any tier is request-quote-only, otherwise the minimum of
the positive `priceFrom` values (0 when none is positive). -/
def getLowestPrice (s : OfferingState) : Int :=
  let tiers := s.tiers
  if tiers.length = 0 then 0
  else if tiers.any (fun t => t.requestQuoteOnly) then 0
  else
    let prices := (tiers.map fun t => t.priceFrom).filter fun p => decide (0 < p)
    match prices with
    | [] => 0
    | p :: ps => ps.foldl min p

/-- The root `App` component's `getHighestPrice` preview helper: 0 on an
empty tier list or when any tier is request-quote-only, otherwise the maximum
of the positive `priceFrom`/`priceTo` values (0 when none is positive). -/
def getHighestPrice (s : OfferingState) : Int :=
  let tiers := s.tiers
  if tiers.length = 0 then 0
  else if tiers.any (fun t => t.requestQuoteOnly) then 0
  else
    let prices :=
      (tiers.flatMap fun t => [t.priceFrom, t.priceTo]).filter fun p => decide (0 < p)
    match prices with
    | [] => 0
    | p :: ps => ps.foldl max p

end App

namespace Images

/-- The `Images` component's `getLowestPrice`: like the `App` version but
without any `requestQuoteOnly` check. -/
def getLowestPrice (s : OfferingState) : Int :=
  let tiers := s.tiers
  if tiers.length = 0 then 0
  else
    let prices := (tiers.map fun t => t.priceFrom).filter fun p => decide (0 < p)
    match prices with
    | [] => 0
    | p :: ps => ps.foldl min p

/-- The `Images` component's `getHighestPrice`: like the `App` version but
without any `requestQuoteOnly` check. -/
def getHighestPrice (s : OfferingState) : Int :=
  let tiers := s.tiers
  if tiers.length = 0 then 0
  else
    let prices :=
      (tiers.flatMap fun t => [t.priceFrom, t.priceTo]).filter fun p => decide (0 < p)
    match prices with
    | [] => 0
    | p :: ps => ps.foldl max p

end Images

/-- One invocation of a public mutating operation of the `OfferingState`
service, with its arguments. -/
inductive Op where
  | setCurrentStep (stepNumber : Int)
  | setOfferingType (offeringType : Option OfferingType)
  | completeStep (stepId : Int)
  | nextStep
  | previousStep
  | reset
  | addTier (tier : Tier)
  | deleteTier (tierId : String)
  | selectTier (tierId : String)
  | updateTierProperty (tierId : String) (f : TierField)
  | reorderTiers (fromIndex toIndex : Nat)
  | useRecommendedTiers
  | setThumbnailImage (image : Option OfferingImage)
  | addGalleryImage (image : OfferingImage)
  | removeGalleryImage (imageId : String)
  | setFallbackColor (color : FallbackColor)
deriving DecidableEq, Repr

/-- Apply one operation to the state. -/
def applyOp (s : OfferingState) : Op → OfferingState
  | .setCurrentStep n => s.setCurrentStep n
  | .setOfferingType t => s.setOfferingType t
  | .completeStep i => s.completeStep i
  | .nextStep => s.nextStep
  | .previousStep => s.previousStep
  | .reset => s.reset
  | .addTier t => s.addTier t
  | .deleteTier tid => s.deleteTier tid
  | .selectTier tid => s.selectTier tid
  | .updateTierProperty tid f => s.updateTierProperty tid f
  | .reorderTiers i j => s.reorderTiers i j
  | .useRecommendedTiers => s.useRecommendedTiers
  | .setThumbnailImage img => s.setThumbnailImage img
  | .addGalleryImage img => s.addGalleryImage img
  | .removeGalleryImage iid => s.removeGalleryImage iid
  | .setFallbackColor c => s.setFallbackColor c

/-- Apply a sequence of operations, left to right. -/
def applyOps (s : OfferingState) (ops : List Op) : OfferingState :=
  ops.foldl applyOp s

/-- The step-bounds invariant: `FIRST_STEP ≤ currentStep ≤ TOTAL_STEPS`. -/
def StepInv (s : OfferingState) : Prop :=
  OfferingState.FIRST_STEP ≤ s.currentStep ∧ s.currentStep ≤ OfferingState.TOTAL_STEPS

instance (s : OfferingState) : Decidable (StepInv s) :=
  inferInstanceAs (Decidable (OfferingState.FIRST_STEP ≤ s.currentStep ∧
    s.currentStep ≤ OfferingState.TOTAL_STEPS))

/-- The weak-reference invariant on the tier selection: `selectedTierId` is
unset or is the id of a tier present in `tiers`. -/
def tierRefOk (s : OfferingState) : Prop :=
  s.selectedTierId = none ∨ ∃ t ∈ s.tiers, some t.id = s.selectedTierId

instance (s : OfferingState) : Decidable (tierRefOk s) :=
  inferInstanceAs (Decidable (s.selectedTierId = none ∨
    ∃ t ∈ s.tiers, some t.id = s.selectedTierId))

/-- Side condition under which an operation is expected to respect the
tier-selection weak reference: `selectTier` is called with the id of a tier
present at the time of the call, and `updateTierProperty` is not used to
rewrite a tier's `id` field.  All other operations are unrestricted. -/
def opSafe (s : OfferingState) : Op → Prop
  | .selectTier tierId => ∃ t ∈ s.tiers, t.id = tierId
  | .updateTierProperty _ f => f.isIdUpd = false
  | _ => True

instance (s : OfferingState) (o : Op) : Decidable (opSafe s o) :=
  match o with
  | .selectTier tierId => inferInstanceAs (Decidable (∃ t ∈ s.tiers, t.id = tierId))
  | .updateTierProperty _ f => inferInstanceAs (Decidable (f.isIdUpd = false))
  | .setCurrentStep _ => inferInstanceAs (Decidable True)
  | .setOfferingType _ => inferInstanceAs (Decidable True)
  | .completeStep _ => inferInstanceAs (Decidable True)
  | .nextStep => inferInstanceAs (Decidable True)
  | .previousStep => inferInstanceAs (Decidable True)
  | .reset => inferInstanceAs (Decidable True)
  | .addTier _ => inferInstanceAs (Decidable True)
  | .deleteTier _ => inferInstanceAs (Decidable True)
  | .reorderTiers _ _ => inferInstanceAs (Decidable True)
  | .useRecommendedTiers => inferInstanceAs (Decidable True)
  | .setThumbnailImage _ => inferInstanceAs (Decidable True)
  | .addGalleryImage _ => inferInstanceAs (Decidable True)
  | .removeGalleryImage _ => inferInstanceAs (Decidable True)
  | .setFallbackColor _ => inferInstanceAs (Decidable True)

/-- The supersession chain shape of a tier list: every non-first tier's
`supersedeTier` equals its predecessor's id. -/
def supersedeChain : List Tier → Prop
  | [] => True
  | [_] => True
  | a :: b :: rest => b.supersedeTier = a.id ∧ supersedeChain (b :: rest)

instance instDecidableSupersedeChain :
    (l : List Tier) → Decidable (supersedeChain l)
  | [] => inferInstanceAs (Decidable True)
  | [_] => inferInstanceAs (Decidable True)
  | a :: b :: rest =>
      have : Decidable (supersedeChain (b :: rest)) :=
        instDecidableSupersedeChain (b :: rest)
      inferInstanceAs (Decidable (b.supersedeTier = a.id ∧ supersedeChain (b :: rest)))

/-- A concrete tier with a price range 500–1000, used by several claims. -/
def exampleTierA : Tier :=
  { id := "a", name := "A", displayNameOverride := "", supersedeTier := "",
    bulletPoints := [], isPopular := false, billingType := .perProject,
    hasPriceRange := true, priceFrom := 500, priceTo := 1000,
    currency := "NZD", priceUnit := "Project", requestQuoteOnly := false }

/-- A second concrete tier. -/
def exampleTierB : Tier :=
  { exampleTierA with id := "b", name := "B" }

/-- A third concrete tier. -/
def exampleTierC : Tier :=
  { exampleTierA with id := "c", name := "C" }

/-- A request-quote-only tier with zeroed prices. -/
def quoteOnlyTier : Tier :=
  { exampleTierA with
      id := "q"
      name := "Q"
      hasPriceRange := false
      priceFrom := 0
      priceTo := 0
      requestQuoteOnly := true }

/-- A tier whose id is the empty string (JS treats `''` as falsy). -/
def emptyIdTier : Tier :=
  { exampleTierA with id := "", name := "E" }

/-- A tier that supersedes `exampleTierA` by id. -/
def danglingTier : Tier :=
  { exampleTierA with id := "b", name := "B", supersedeTier := "a" }

/-- State whose tiers are the two-tier price example of the spec. -/
def statePriceQuote : OfferingState :=
  { OfferingState.initialState with tiers := [exampleTierA, quoteOnlyTier] }

/-- State whose tiers are the single-tier price example of the spec. -/
def statePriceSingle : OfferingState :=
  { OfferingState.initialState with tiers := [exampleTierA] }

/-- State with three tiers A, B, C, for the reorder example. -/
def stateABC : OfferingState :=
  { OfferingState.initialState with
      tiers := [exampleTierA, exampleTierB, exampleTierC] }

/-- State with a supersession reference from tier "b" to tier "a". -/
def stateDangling : OfferingState :=
  { OfferingState.initialState with tiers := [exampleTierA, danglingTier] }

/-- State with tier A present and selected. -/
def stateSelectedA : OfferingState :=
  { OfferingState.initialState with
      tiers := [exampleTierA]
      selectedTierId := some "a" }

/-- State holding only the empty-id tier. -/
def stateEmptyIdTier : OfferingState :=
  { OfferingState.initialState with tiers := [emptyIdTier] }

/-- State holding only tier B (well-formed, nonempty id). -/
def stateOnlyB : OfferingState :=
  { OfferingState.initialState with tiers := [exampleTierB] }

/-- State that has explicitly selected the product offering type. -/
def stateProductType : OfferingState :=
  { OfferingState.initialState with selectedOfferingType := some .product }

/-! ### Field-preservation lemmas for the operations -/

namespace OfferingState

lemma setCurrentStep_tiers (s : OfferingState) (n : Int) :
    (s.setCurrentStep n).tiers = s.tiers := by
  unfold setCurrentStep; split <;> rfl

lemma setCurrentStep_selectedTierId (s : OfferingState) (n : Int) :
    (s.setCurrentStep n).selectedTierId = s.selectedTierId := by
  unfold setCurrentStep; split <;> rfl

lemma nextStep_eq (s : OfferingState) :
    s.nextStep =
      if s.currentStep < TOTAL_STEPS then
        (s.completeStep s.currentStep).setCurrentStep (s.currentStep + 1)
      else s := rfl

lemma previousStep_eq (s : OfferingState) :
    s.previousStep =
      if s.currentStep > FIRST_STEP then s.setCurrentStep (s.currentStep - 1)
      else s := rfl

lemma nextStep_tiers (s : OfferingState) : s.nextStep.tiers = s.tiers := by
  rw [nextStep_eq]
  split
  · rw [setCurrentStep_tiers]; rfl
  · rfl

lemma nextStep_selectedTierId (s : OfferingState) :
    s.nextStep.selectedTierId = s.selectedTierId := by
  rw [nextStep_eq]
  split
  · rw [setCurrentStep_selectedTierId]; rfl
  · rfl

lemma previousStep_tiers (s : OfferingState) : s.previousStep.tiers = s.tiers := by
  rw [previousStep_eq]
  split
  · rw [setCurrentStep_tiers]
  · rfl

lemma previousStep_selectedTierId (s : OfferingState) :
    s.previousStep.selectedTierId = s.selectedTierId := by
  rw [previousStep_eq]
  split
  · rw [setCurrentStep_selectedTierId]
  · rfl

lemma deleteTier_currentStep (s : OfferingState) (tid : String) :
    (s.deleteTier tid).currentStep = s.currentStep := by
  unfold deleteTier; split <;> rfl

lemma reorderTiers_currentStep (s : OfferingState) (i j : Nat) :
    (s.reorderTiers i j).currentStep = s.currentStep := by
  unfold reorderTiers; split <;> rfl

lemma useRecommendedTiers_eq (s : OfferingState) :
    s.useRecommendedTiers =
      if effectiveOfferingType s = some .service then
        { s with tiers := serviceTiers, selectedTierId := some "professional" }
      else if effectiveOfferingType s = some .product then
        { s with tiers := productTiers, selectedTierId := some "base" }
      else if effectiveOfferingType s = some .subscription then
        { s with tiers := subscriptionTiers, selectedTierId := some "professional" }
      else s := rfl

lemma useRecommendedTiers_currentStep (s : OfferingState) :
    s.useRecommendedTiers.currentStep = s.currentStep := by
  rw [useRecommendedTiers_eq]; split_ifs <;> rfl

end OfferingState

/-! ### The step-bounds invariant (claim C1) -/

lemma stepInv_of_currentStep_eq {s s' : OfferingState}
    (h : s'.currentStep = s.currentStep) (hs : StepInv s) : StepInv s' := by
  unfold StepInv at hs ⊢; rw [h]; exact hs

lemma stepInv_setCurrentStep (s : OfferingState) (n : Int) (h : StepInv s) :
    StepInv (s.setCurrentStep n) := by
  unfold OfferingState.setCurrentStep
  split
  · next hn => exact hn
  · exact h

lemma stepInv_applyOp (s : OfferingState) (o : Op) (h : StepInv s) :
    StepInv (applyOp s o) := by
  cases o with
  | setCurrentStep n => exact stepInv_setCurrentStep s n h
  | setOfferingType t => exact stepInv_of_currentStep_eq rfl h
  | completeStep i => exact stepInv_of_currentStep_eq rfl h
  | nextStep =>
      show StepInv s.nextStep
      rw [OfferingState.nextStep_eq]
      split
      · exact stepInv_setCurrentStep _ _ (stepInv_of_currentStep_eq rfl h)
      · exact h
  | previousStep =>
      show StepInv s.previousStep
      rw [OfferingState.previousStep_eq]
      split
      · exact stepInv_setCurrentStep _ _ h
      · exact h
  | reset =>
      exact stepInv_of_currentStep_eq (s := OfferingState.initialState) rfl (by decide)
  | addTier t => exact stepInv_of_currentStep_eq rfl h
  | deleteTier tid =>
      exact stepInv_of_currentStep_eq (OfferingState.deleteTier_currentStep s tid) h
  | selectTier tid => exact stepInv_of_currentStep_eq rfl h
  | updateTierProperty tid f => exact stepInv_of_currentStep_eq rfl h
  | reorderTiers i j =>
      exact stepInv_of_currentStep_eq (OfferingState.reorderTiers_currentStep s i j) h
  | useRecommendedTiers =>
      exact stepInv_of_currentStep_eq (OfferingState.useRecommendedTiers_currentStep s) h
  | setThumbnailImage img => exact stepInv_of_currentStep_eq rfl h
  | addGalleryImage img => exact stepInv_of_currentStep_eq rfl h
  | removeGalleryImage iid => exact stepInv_of_currentStep_eq rfl h
  | setFallbackColor c => exact stepInv_of_currentStep_eq rfl h

lemma stepInv_applyOps (ops : List Op) (s : OfferingState) (h : StepInv s) :
    StepInv (applyOps s ops) := by
  induction ops generalizing s with
  | nil => exact h
  | cons o rest ih => exact ih _ (stepInv_applyOp s o h)

/-- C1: for the `OfferingState` store, starting from the initial state
(`currentStep = 1`), the invariant `1 ≤ currentStep ≤ 4` holds at all times:
it is preserved by every operation sequence, in particular by
`setCurrentStep n` for every integer `n`, by `nextStep`, by `previousStep`,
and by `reset`. -/
theorem c1_currentStep_invariant (ops : List Op) :
    StepInv (applyOps OfferingState.initialState ops) :=
  stepInv_applyOps ops _ (by decide)

/-- C5: `reset()`, invoked from any state, yields `currentStep = 1`, empty
`tiers`, `keyFeatures`, `tags` and `galleryImages`, `thumbnailImage` unset,
`selectedOfferingType` unset, all four steps with `completed = false`, and
`fallbackColor = "burgundy"`. -/
theorem c5_reset_initializes (s : OfferingState) :
    s.reset.currentStep = 1 ∧
    s.reset.tiers = [] ∧
    s.reset.keyFeatures = [] ∧
    s.reset.tags = [] ∧
    s.reset.galleryImages = [] ∧
    s.reset.thumbnailImage = none ∧
    s.reset.selectedOfferingType = none ∧
    s.reset.steps.length = 4 ∧
    (∀ st ∈ s.reset.steps, st.completed = false) ∧
    s.reset.fallbackColor = FallbackColor.burgundy := by
  refine ⟨rfl, rfl, rfl, rfl, rfl, rfl, rfl, rfl, ?_, rfl⟩
  show ∀ st ∈ OfferingState.INITIAL_STEPS, st.completed = false
  decide

/-! ### Recommended tier templates (claim C3) -/

/-- C3: `useRecommendedTiers()` with effective offering type (selected type,
falling back to the suggested type when unset) `"product"` replaces the tiers
with exactly 2 tiers named "Base" and "Advanced", both with billingType
`"fixed-price"`; with `"service"` it yields 3 tiers "Starter",
"Professional", "Enterprise" and sets `selectedTierId` to `"professional"`;
in each template every non-first tier's `supersedeTier` equals its
predecessor's id. -/
theorem c3_useRecommendedTiers_templates (s : OfferingState) :
    (OfferingState.effectiveOfferingType s = some OfferingType.product →
      s.useRecommendedTiers.tiers.map Tier.name = ["Base", "Advanced"] ∧
      (∀ t ∈ s.useRecommendedTiers.tiers, t.billingType = BillingType.fixedPrice) ∧
      supersedeChain s.useRecommendedTiers.tiers) ∧
    (OfferingState.effectiveOfferingType s = some OfferingType.service →
      s.useRecommendedTiers.tiers.map Tier.name =
        ["Starter", "Professional", "Enterprise"] ∧
      s.useRecommendedTiers.selectedTierId = some "professional" ∧
      supersedeChain s.useRecommendedTiers.tiers) := by
  constructor
  · intro hp
    rw [OfferingState.useRecommendedTiers_eq, hp, if_neg (by decide), if_pos rfl]
    show List.map Tier.name OfferingState.productTiers = ["Base", "Advanced"] ∧
      (∀ t ∈ OfferingState.productTiers, t.billingType = BillingType.fixedPrice) ∧
      supersedeChain OfferingState.productTiers
    decide
  · intro hs
    rw [OfferingState.useRecommendedTiers_eq, hs, if_pos rfl]
    show List.map Tier.name OfferingState.serviceTiers =
        ["Starter", "Professional", "Enterprise"] ∧
      some "professional" = some "professional" ∧
      supersedeChain OfferingState.serviceTiers
    decide

/-- Witness for C3: the product branch via an explicit selection, the service
branch via the suggested-type fallback of the initial state. -/
theorem c3_useRecommendedTiers_witness :
    OfferingState.effectiveOfferingType stateProductType
      = some OfferingType.product ∧
    OfferingState.effectiveOfferingType OfferingState.initialState
      = some OfferingType.service ∧
    stateProductType.useRecommendedTiers.tiers.map Tier.name
      = ["Base", "Advanced"] ∧
    OfferingState.initialState.useRecommendedTiers.selectedTierId
      = some "professional" := by
  refine ⟨rfl, rfl, ?_, ?_⟩
  · exact ((c3_useRecommendedTiers_templates stateProductType).1 rfl).1
  · exact ((c3_useRecommendedTiers_templates OfferingState.initialState).2 rfl).2.1

/-! ### Price-range helpers (claim C4) -/

/-- C4 counterexample: on tiers
`[{priceFrom:500,priceTo:1000},{priceFrom:0,priceTo:0,requestQuoteOnly:true}]`
the `Images` component's price helpers do NOT return 0: they have no
request-quote-only override, and yield 500 and 1000. -/
theorem c4_images_no_quote_override :
    Images.getLowestPrice statePriceQuote = 500 ∧
    Images.getHighestPrice statePriceQuote = 1000 ∧
    ¬ (Images.getLowestPrice statePriceQuote = 0 ∧
       Images.getHighestPrice statePriceQuote = 0) := by
  refine ⟨rfl, rfl, ?_⟩
  decide

/-- C4 amended: the quote-only override holds for the `App` preview helpers
only.  On the two-tier example with a request-quote-only tier, `App` yields
lowest 0 and highest 0 while `Images` yields 500 and 1000; on the single
tier `{priceFrom:500, priceTo:1000}` with no quote-only tier, all four
helpers yield lowest 500 and highest 1000. -/
theorem c4_price_helpers :
    App.getLowestPrice statePriceQuote = 0 ∧
    App.getHighestPrice statePriceQuote = 0 ∧
    Images.getLowestPrice statePriceQuote = 500 ∧
    Images.getHighestPrice statePriceQuote = 1000 ∧
    App.getLowestPrice statePriceSingle = 500 ∧
    App.getHighestPrice statePriceSingle = 1000 ∧
    Images.getLowestPrice statePriceSingle = 500 ∧
    Images.getHighestPrice statePriceSingle = 1000 :=
  ⟨rfl, rfl, rfl, rfl, rfl, rfl, rfl, rfl⟩

/-! ### Reordering (claim C8) -/

/-- C8: for valid indices, `reorderTiers(fromIndex, toIndex)` removes the
element at `fromIndex` and reinserts it at position `toIndex` of the sequence
that results from the removal (splice-move semantics), leaving the relative
order of all other elements unchanged. -/
theorem c8_reorderTiers_splice (s : OfferingState) (fromIndex toIndex : Nat)
    (h1 : fromIndex < s.tiers.length) (h2 : toIndex < s.tiers.length) :
    (s.reorderTiers fromIndex toIndex).tiers =
      (s.tiers.eraseIdx fromIndex).insertIdx toIndex
        (s.tiers.get ⟨fromIndex, h1⟩) := by
  unfold OfferingState.reorderTiers
  rw [dif_pos h1]
  show (s.tiers.eraseIdx fromIndex).insertIdx
      (min toIndex (s.tiers.eraseIdx fromIndex).length)
      (s.tiers.get ⟨fromIndex, h1⟩) = _
  have hlen : (s.tiers.eraseIdx fromIndex).length = s.tiers.length - 1 := by
    rw [List.length_eraseIdx]; simp [h1]
  rw [hlen, Nat.min_eq_left (Nat.le_sub_one_of_lt h2)]

/-- Witness for C8: `reorderTiers(0,2)` on tiers `[A,B,C]` yields `[B,C,A]`. -/
theorem c8_reorderTiers_witness :
    0 < stateABC.tiers.length ∧ 2 < stateABC.tiers.length ∧
    (stateABC.reorderTiers 0 2).tiers =
      [exampleTierB, exampleTierC, exampleTierA] := by
  refine ⟨by decide, by decide, ?_⟩
  rw [c8_reorderTiers_splice stateABC 0 2 (by decide) (by decide)]
  rfl

/-! ### Deletion frame property (claim C9) -/

lemma deleteTier_eq (s : OfferingState) (tierId : String) :
    s.deleteTier tierId =
      if s.selectedTierId = some tierId then
        { s with tiers := s.tiers.filter fun t => t.id != tierId,
                 selectedTierId :=
                   match s.tiers.filter fun t => t.id != tierId with
                   | [] => none
                   | t :: _ => some t.id }
      else
        { s with tiers := s.tiers.filter fun t => t.id != tierId } := rfl

/-- C9: `deleteTier(id)` leaves every surviving tier entirely unchanged: the
resulting tier list is exactly the filter of the old list, so each survivor
is the very same `Tier` value as before — in particular a `supersedeTier`
field referencing the deleted id is not cleared or repaired. -/
theorem c9_deleteTier_frame (s : OfferingState) (tierId : String) :
    (s.deleteTier tierId).tiers = (s.tiers.filter fun t => t.id != tierId) ∧
    (∀ t ∈ s.tiers, t.id ≠ tierId → t ∈ (s.deleteTier tierId).tiers) := by
  have htiers : (s.deleteTier tierId).tiers =
      (s.tiers.filter fun t => t.id != tierId) := by
    rw [deleteTier_eq]; split <;> rfl
  refine ⟨htiers, ?_⟩
  intro t ht hne
  rw [htiers]
  exact List.mem_filter.mpr ⟨ht, by simpa using hne⟩

/-- Witness for C9: deleting tier "a" keeps tier "b" whose `supersedeTier`
still references the deleted id "a" (a dangling reference). -/
theorem c9_deleteTier_witness :
    danglingTier ∈ (stateDangling.deleteTier "a").tiers ∧
    danglingTier.supersedeTier = "a" :=
  ⟨(c9_deleteTier_frame stateDangling "a").2 danglingTier (by decide) (by decide),
   rfl⟩

/-! ### Selected-tier machinery -/

lemma Tier.setField_id (t : Tier) (f : TierField) (hf : f.isIdUpd = false) :
    (t.setField f).id = t.id := by
  cases f <;> first | rfl | simp [TierField.isIdUpd] at hf

lemma find?_id_map_update (l : List Tier) (tierId : String) (g : Tier → Tier)
    (hg : ∀ t, (g t).id = t.id) :
    ((l.map fun t => if t.id = tierId then g t else t).find? fun t => t.id == tierId)
      = (l.find? fun t => t.id == tierId).map g := by
  induction l with
  | nil => rfl
  | cons x xs ih =>
      by_cases hx : x.id = tierId
      · have hgx : ((g x).id == tierId) = true := by simp [hg x, hx]
        have hxx : (x.id == tierId) = true := by simp [hx]
        simp only [List.map_cons, if_pos hx]
        rw [List.find?_cons_of_pos (p := fun t : Tier => t.id == tierId) _ hgx,
          List.find?_cons_of_pos (p := fun t : Tier => t.id == tierId) _ hxx]
        rfl
      · have hxx : ¬ (x.id == tierId) = true := by simp [hx]
        simp only [List.map_cons, if_neg hx]
        rw [List.find?_cons_of_neg (p := fun t : Tier => t.id == tierId) _ hxx,
          List.find?_cons_of_neg (p := fun t : Tier => t.id == tierId) _ hxx, ih]

lemma getSelectedTier_spec {s : OfferingState} {t : Tier}
    (h : s.getSelectedTier = some t) :
    s.selectedTierId = some t.id ∧ t.id ≠ "" ∧
    (s.tiers.find? fun u => u.id == t.id) = some t := by
  unfold OfferingState.getSelectedTier at h
  cases hsel : s.selectedTierId with
  | none =>
      rw [hsel] at h
      have h' : (none : Option Tier) = some t := h
      cases h'
  | some tierId =>
      rw [hsel] at h
      have h' : (if tierId = "" then none
          else s.tiers.find? fun u => u.id == tierId) = some t := h
      by_cases he : tierId = ""
      · rw [if_pos he] at h'; cases h'
      · rw [if_neg he] at h'
        have hid : t.id = tierId := by simpa using List.find?_some h'
        refine ⟨by rw [hid], by rw [hid]; exact he, by rw [hid]; exact h'⟩

lemma getSelectedTier_updateTierProperty {s : OfferingState} {t : Tier}
    (f : TierField) (hf : f.isIdUpd = false) (h : s.getSelectedTier = some t) :
    (s.updateTierProperty t.id f).getSelectedTier = some (t.setField f) := by
  obtain ⟨hsel, hne, hfind⟩ := getSelectedTier_spec h
  unfold OfferingState.getSelectedTier OfferingState.updateTierProperty
  simp only [hsel]
  rw [if_neg hne]
  rw [find?_id_map_update _ _ _ (fun u => Tier.setField_id u f hf), hfind]
  rfl

/-! ### Toggling request-quote-only (claim C7) -/

/-- C7: `toggleRequestQuote(true)`, applied while a tier is selected, leaves
the selected tier with `requestQuoteOnly = true`, `priceFrom = 0` and
`priceTo = 0`, for every prior value of the price fields. -/
theorem c7_toggleRequestQuote_zeroes (s : OfferingState) (t : Tier)
    (h : s.getSelectedTier = some t) :
    ∃ t', (Tiers.toggleRequestQuote s true).getSelectedTier = some t' ∧
      t'.requestQuoteOnly = true ∧ t'.priceFrom = 0 ∧ t'.priceTo = 0 := by
  refine ⟨((t.setField (.requestQuoteOnly true)).setField (.priceFrom 0)).setField
      (.priceTo 0), ?_, rfl, rfl, rfl⟩
  unfold Tiers.toggleRequestQuote
  rw [h]
  have h1 := getSelectedTier_updateTierProperty (.requestQuoteOnly true) rfl h
  have h2 := getSelectedTier_updateTierProperty (.priceFrom 0) rfl h1
  have h3 := getSelectedTier_updateTierProperty (.priceTo 0) rfl h2
  exact h3

/-- Witness for C7: toggling on the concrete selected tier "a" with prices
500/1000 zeroes both price fields. -/
theorem c7_toggleRequestQuote_witness :
    stateSelectedA.getSelectedTier = some exampleTierA ∧
    ∃ t', (Tiers.toggleRequestQuote stateSelectedA true).getSelectedTier = some t' ∧
      t'.requestQuoteOnly = true ∧ t'.priceFrom = 0 ∧ t'.priceTo = 0 :=
  ⟨rfl, c7_toggleRequestQuote_zeroes stateSelectedA exampleTierA rfl⟩

/-! ### Billing type / price unit coupling (claim C10) -/

/-- C10: `updateBillingType(b)`, applied while a tier is selected, not only
sets that tier's `billingType` to `b` but also overwrites its `priceUnit` as
a function of `b`: "Project" for per-project, "hr" for hourly, "Month" for
monthly-retainer, and the empty string for fixed-price. -/
theorem c10_updateBillingType_priceUnit (s : OfferingState) (b : BillingType)
    (t : Tier) (h : s.getSelectedTier = some t) :
    (∃ t', (Tiers.updateBillingType s b).getSelectedTier = some t' ∧
      t'.billingType = b ∧
      t'.priceUnit = priceUnitForBillingType b) ∧
    priceUnitForBillingType .perProject = "Project" ∧
    priceUnitForBillingType .hourly = "hr" ∧
    priceUnitForBillingType .monthlyRetainer = "Month" ∧
    priceUnitForBillingType .fixedPrice = "" := by
  refine ⟨⟨(t.setField (.billingType b)).setField
      (.priceUnit (priceUnitForBillingType b)), ?_, rfl, rfl⟩, rfl, rfl, rfl, rfl⟩
  unfold Tiers.updateBillingType
  rw [h]
  have h1 := getSelectedTier_updateTierProperty (.billingType b) rfl h
  have h2 := getSelectedTier_updateTierProperty
    (.priceUnit (priceUnitForBillingType b)) rfl h1
  exact h2

/-- Witness for C10: with tier "a" selected, updating the billing type to
hourly sets `billingType = hourly` and `priceUnit = "hr"`. -/
theorem c10_updateBillingType_witness :
    stateSelectedA.getSelectedTier = some exampleTierA ∧
    ∃ t', (Tiers.updateBillingType stateSelectedA BillingType.hourly).getSelectedTier
        = some t' ∧
      t'.billingType = BillingType.hourly ∧ t'.priceUnit = "hr" := by
  refine ⟨rfl, ?_⟩
  obtain ⟨⟨t', h1, h2, h3⟩, _, hhr, _, _⟩ :=
    c10_updateBillingType_priceUnit stateSelectedA BillingType.hourly exampleTierA rfl
  exact ⟨t', h1, h2, by rw [h3, hhr]⟩

/-! ### Add/delete selection round-trip (claim C6) -/

/-- C6 counterexample: the claim fails for a tier whose id is the empty
string, because the source's falsy guard `if (!tierId) return null` in
`getSelectedTier` treats the empty string like `null`.  Adding a tier with
id `""` to the empty initial state selects it, yet `getSelectedTier()`
returns none rather than that tier; and deleting tier "a" when the remaining
first tier has id `""` leaves a nonempty tier list with
`getSelectedTier() = none` rather than the first tier. -/
theorem c6_empty_id_counterexample :
    (OfferingState.initialState.addTier emptyIdTier).getSelectedTier
        ≠ some emptyIdTier ∧
    ((stateEmptyIdTier.addTier exampleTierA).deleteTier "a").tiers
        = [emptyIdTier] ∧
    ((stateEmptyIdTier.addTier exampleTierA).deleteTier "a").getSelectedTier
        = none :=
  ⟨by decide, rfl, rfl⟩

/-- C6 amended: for every tier `t` whose id is nonempty and distinct from all
ids already in `tiers`, where the tiers already present also have nonempty
ids: after `addTier(t)`, `getSelectedTier()` returns `t`; if
`deleteTier(t.id)` is then invoked, `getSelectedTier()` returns the first
tier of the resulting tiers sequence, or none if that sequence is empty. -/
theorem c6_addTier_deleteTier_selection (s : OfferingState) (t : Tier)
    (ht : t.id ≠ "")
    (hdistinct : ∀ u ∈ s.tiers, u.id ≠ t.id)
    (hids : ∀ u ∈ s.tiers, u.id ≠ "") :
    (s.addTier t).getSelectedTier = some t ∧
    ((s.addTier t).deleteTier t.id).getSelectedTier
      = ((s.addTier t).deleteTier t.id).tiers.head? := by
  have hfilter : ((s.tiers ++ [t]).filter fun u => u.id != t.id) = s.tiers := by
    rw [List.filter_append]
    have h1 : (s.tiers.filter fun u => u.id != t.id) = s.tiers :=
      List.filter_eq_self.mpr fun u hu => by simpa using hdistinct u hu
    have h2 : ([t].filter fun u => u.id != t.id) = [] := by simp
    rw [h1, h2, List.append_nil]
  have haddsel : (s.addTier t).selectedTierId = some t.id := rfl
  have htiers2 : ((s.addTier t).deleteTier t.id).tiers = s.tiers := by
    rw [deleteTier_eq, if_pos haddsel]
    show ((s.tiers ++ [t]).filter fun u => u.id != t.id) = s.tiers
    exact hfilter
  have hsel2 : ((s.addTier t).deleteTier t.id).selectedTierId
      = (match s.tiers with | [] => none | u :: _ => some u.id) := by
    rw [deleteTier_eq, if_pos haddsel]
    show (match (s.tiers ++ [t]).filter fun u => u.id != t.id with
      | [] => none | u :: _ => some u.id) = _
    rw [hfilter]
  constructor
  · unfold OfferingState.getSelectedTier OfferingState.addTier
    show (if t.id = "" then none
        else (s.tiers ++ [t]).find? fun u => u.id == t.id) = some t
    rw [if_neg ht, List.find?_append]
    have hnone : (s.tiers.find? fun u => u.id == t.id) = none :=
      List.find?_eq_none.mpr fun u hu => by simpa using hdistinct u hu
    have hsingle : (List.find? (fun u : Tier => u.id == t.id) [t]) = some t :=
      List.find?_cons_of_pos _ (by simp)
    rw [hnone, hsingle, Option.none_or]
  · cases hst : s.tiers with
    | nil =>
        have h1 : ((s.addTier t).deleteTier t.id).selectedTierId = none := by
          rw [hsel2, hst]
        have h2 : ((s.addTier t).deleteTier t.id).tiers = [] := by
          rw [htiers2, hst]
        have h3 : ((s.addTier t).deleteTier t.id).getSelectedTier = none := by
          unfold OfferingState.getSelectedTier
          simp only [h1]
        rw [h3, h2]
        rfl
    | cons u rest =>
        have hu : u.id ≠ "" := hids u (by rw [hst]; exact List.mem_cons_self u rest)
        have h1 : ((s.addTier t).deleteTier t.id).selectedTierId = some u.id := by
          rw [hsel2, hst]
        have hfind : ((u :: rest).find? fun x => x.id == u.id) = some u :=
          List.find?_cons_of_pos _ (by simp)
        have h3 : ((s.addTier t).deleteTier t.id).getSelectedTier = some u := by
          unfold OfferingState.getSelectedTier
          simp only [h1]
          rw [if_neg hu, htiers2, hst, hfind]
        rw [h3, htiers2, hst]
        rfl

/-- Witness for C6 (amended): adding tier "a" next to the existing tier "b"
selects it, and deleting it falls back to the first remaining tier. -/
theorem c6_addTier_deleteTier_witness :
    exampleTierA.id ≠ "" ∧
    (stateOnlyB.addTier exampleTierA).getSelectedTier = some exampleTierA ∧
    ((stateOnlyB.addTier exampleTierA).deleteTier exampleTierA.id).getSelectedTier
      = ((stateOnlyB.addTier exampleTierA).deleteTier exampleTierA.id).tiers.head? := by
  have h := c6_addTier_deleteTier_selection stateOnlyB exampleTierA (by decide)
    (by decide) (by decide)
  exact ⟨by decide, h.1, h.2⟩

/-! ### The tier-selection weak-reference invariant (claim C2) -/

lemma tierRefOk_congr {s s' : OfferingState} (ht : s'.tiers = s.tiers)
    (hsel : s'.selectedTierId = s.selectedTierId) (h : tierRefOk s) :
    tierRefOk s' := by
  unfold tierRefOk at h ⊢
  rw [ht, hsel]
  exact h

lemma reorderTiers_eq (s : OfferingState) (i j : Nat) :
    s.reorderTiers i j =
      if h : i < s.tiers.length then
        { s with
            tiers := ((s.tiers.eraseIdx i).insertIdx
              (min j (s.tiers.eraseIdx i).length) (s.tiers.get ⟨i, h⟩)) }
      else s := rfl

lemma mem_get_or_mem_eraseIdx {α : Type} :
    ∀ (l : List α) (i : Nat) (h : i < l.length) (a : α), a ∈ l →
      a = l.get ⟨i, h⟩ ∨ a ∈ l.eraseIdx i
  | [], _, h, _, _ => by simp at h
  | x :: xs, 0, _, a, ha => by
      rcases List.mem_cons.mp ha with h1 | h2
      · exact Or.inl h1
      · exact Or.inr (by simpa using h2)
  | x :: xs, i + 1, h, a, ha => by
      rcases List.mem_cons.mp ha with h1 | h2
      · refine Or.inr ?_
        show a ∈ x :: xs.eraseIdx i
        exact List.mem_cons.mpr (Or.inl h1)
      · rcases mem_get_or_mem_eraseIdx xs i (by simpa using h) a h2 with h3 | h4
        · exact Or.inl h3
        · refine Or.inr ?_
          show a ∈ x :: xs.eraseIdx i
          exact List.mem_cons.mpr (Or.inr h4)

lemma tierRefOk_addTier (s : OfferingState) (t : Tier) :
    tierRefOk (s.addTier t) := by
  unfold tierRefOk
  refine Or.inr ⟨t, ?_, rfl⟩
  show t ∈ s.tiers ++ [t]
  exact List.mem_append_right _ (List.mem_singleton.mpr rfl)

lemma tierRefOk_deleteTier (s : OfferingState) (tid : String)
    (h : tierRefOk s) : tierRefOk (s.deleteTier tid) := by
  unfold tierRefOk at h ⊢
  rw [deleteTier_eq]
  split_ifs with hsel
  · cases hf : (s.tiers.filter fun u => u.id != tid) with
    | nil => exact Or.inl rfl
    | cons u rest =>
        refine Or.inr ⟨u, ?_, ?_⟩
        · show u ∈ u :: rest
          exact List.mem_cons_self u rest
        · rfl
  · rcases h with h0 | ⟨t, ht, hid⟩
    · exact Or.inl h0
    · refine Or.inr ⟨t, ?_, hid⟩
      show t ∈ s.tiers.filter fun u => u.id != tid
      refine List.mem_filter.mpr ⟨ht, ?_⟩
      have hne : t.id ≠ tid := by
        intro heq
        exact hsel (by rw [← hid, heq])
      simpa using hne

lemma tierRefOk_updateTierProperty (s : OfferingState) (tid : String)
    (f : TierField) (hf : f.isIdUpd = false) (h : tierRefOk s) :
    tierRefOk (s.updateTierProperty tid f) := by
  unfold tierRefOk at h ⊢
  rcases h with h0 | ⟨t, ht, hid⟩
  · exact Or.inl h0
  · refine Or.inr ⟨if t.id = tid then t.setField f else t, ?_, ?_⟩
    · show (if t.id = tid then t.setField f else t) ∈
        s.tiers.map fun tier => if tier.id = tid then tier.setField f else tier
      exact List.mem_map_of_mem _ ht
    · have hpre : (if t.id = tid then t.setField f else t).id = t.id := by
        split
        · exact Tier.setField_id t f hf
        · rfl
      show some (if t.id = tid then t.setField f else t).id = s.selectedTierId
      rw [hpre]; exact hid

lemma tierRefOk_reorderTiers (s : OfferingState) (i j : Nat)
    (h : tierRefOk s) : tierRefOk (s.reorderTiers i j) := by
  unfold tierRefOk at h ⊢
  rw [reorderTiers_eq]
  split
  · next hlt =>
      rcases h with h0 | ⟨t, ht, hid⟩
      · exact Or.inl h0
      · refine Or.inr ⟨t, ?_, hid⟩
        show t ∈ (s.tiers.eraseIdx i).insertIdx
            (min j (s.tiers.eraseIdx i).length) (s.tiers.get ⟨i, hlt⟩)
        rw [List.mem_insertIdx (Nat.min_le_right _ _)]
        rcases mem_get_or_mem_eraseIdx s.tiers i hlt t ht with h1 | h2
        · exact Or.inl h1
        · exact Or.inr h2
  · next => exact h

lemma tierRefOk_useRecommendedTiers (s : OfferingState) (h : tierRefOk s) :
    tierRefOk s.useRecommendedTiers := by
  rw [OfferingState.useRecommendedTiers_eq]
  split_ifs with h1 h2 h3
  · show (some "professional" : Option String) = none ∨
      ∃ t ∈ OfferingState.serviceTiers,
        some t.id = (some "professional" : Option String)
    decide
  · show (some "base" : Option String) = none ∨
      ∃ t ∈ OfferingState.productTiers,
        some t.id = (some "base" : Option String)
    decide
  · show (some "professional" : Option String) = none ∨
      ∃ t ∈ OfferingState.subscriptionTiers,
        some t.id = (some "professional" : Option String)
    decide
  · exact h

lemma tierRefOk_applyOp (s : OfferingState) (o : Op) (h : tierRefOk s)
    (hsafe : opSafe s o) : tierRefOk (applyOp s o) := by
  cases o with
  | setCurrentStep n =>
      exact tierRefOk_congr (OfferingState.setCurrentStep_tiers s n)
        (OfferingState.setCurrentStep_selectedTierId s n) h
  | setOfferingType t => exact tierRefOk_congr rfl rfl h
  | completeStep i => exact tierRefOk_congr rfl rfl h
  | nextStep =>
      exact tierRefOk_congr (OfferingState.nextStep_tiers s)
        (OfferingState.nextStep_selectedTierId s) h
  | previousStep =>
      exact tierRefOk_congr (OfferingState.previousStep_tiers s)
        (OfferingState.previousStep_selectedTierId s) h
  | reset => exact Or.inl rfl
  | addTier t => exact tierRefOk_addTier s t
  | deleteTier tid => exact tierRefOk_deleteTier s tid h
  | selectTier tid =>
      have hs' : ∃ t ∈ s.tiers, t.id = tid := hsafe
      obtain ⟨u, hu, huid⟩ := hs'
      refine Or.inr ⟨u, hu, ?_⟩
      show some u.id = some tid
      rw [huid]
  | updateTierProperty tid f =>
      have hf : f.isIdUpd = false := hsafe
      exact tierRefOk_updateTierProperty s tid f hf h
  | reorderTiers i j => exact tierRefOk_reorderTiers s i j h
  | useRecommendedTiers => exact tierRefOk_useRecommendedTiers s h
  | setThumbnailImage img => exact tierRefOk_congr rfl rfl h
  | addGalleryImage img => exact tierRefOk_congr rfl rfl h
  | removeGalleryImage iid => exact tierRefOk_congr rfl rfl h
  | setFallbackColor c => exact tierRefOk_congr rfl rfl h

/-- C2 amended: the weak-reference invariant — `selectedTierId` is unset or
is the id of a tier present in `tiers` — holds in the initial state and is
preserved by every documented operation, provided `selectTier` is called
only with the id of a currently present tier and `updateTierProperty` is not
used to rewrite a tier's `id` field (the unrestricted operations break it,
see the counterexample). -/
theorem c2_tierRef_invariant :
    tierRefOk OfferingState.initialState ∧
    ∀ (s : OfferingState) (o : Op), tierRefOk s → opSafe s o →
      tierRefOk (applyOp s o) :=
  ⟨Or.inl rfl, fun s o h hsafe => tierRefOk_applyOp s o h hsafe⟩

/-- Witness for C2 (amended): selecting the existing tier "b" in a state
that contains it preserves the invariant. -/
theorem c2_tierRef_witness :
    tierRefOk stateOnlyB ∧ opSafe stateOnlyB (Op.selectTier "b") ∧
    tierRefOk (applyOp stateOnlyB (Op.selectTier "b")) := by
  refine ⟨by decide, by decide, ?_⟩
  exact c2_tierRef_invariant.2 stateOnlyB (Op.selectTier "b") (by decide) (by decide)

/-- C2 counterexample: with arbitrary arguments the documented operations do
break the invariant — `selectTier("x")` from the initial state (no existence
check) makes `selectedTierId` dangle, and `updateTierProperty` keyed on the
`id` property renames tier "a" away from under the selection. -/
theorem c2_arbitrary_args_counterexample :
    ¬ tierRefOk (OfferingState.initialState.selectTier "x") ∧
    ¬ tierRefOk
        ((OfferingState.initialState.addTier exampleTierA).updateTierProperty "a"
          (TierField.id "other")) := by
  constructor <;> decide

/-- Witness for C5: resetting a state with three tiers and a later step
yields the documented initial values. -/
theorem c5_reset_witness :
    stateABC.reset.currentStep = 1 ∧
    stateABC.reset.tiers = [] ∧
    (∀ st ∈ stateABC.reset.steps, st.completed = false) ∧
    stateABC.reset.fallbackColor = FallbackColor.burgundy := by
  have h := c5_reset_initializes stateABC
  exact ⟨h.1, h.2.1, h.2.2.2.2.2.2.2.2.1, h.2.2.2.2.2.2.2.2.2⟩
